import Mathlib

/-!
Shallow embedding of the file-sync engine in src/server.js: the debounce
scheduler (handleFileChange, cleanupPendingOperations), the retry loop
(retryWithBackoff), the sender (syncFile with the in-flight guard and the
sync statistics), and the receive endpoint (POST /files).

Modelling conventions:
* time is a Nat (milliseconds); a JS timer is represented by the map entry
  that stores its handle, so cancelling a timer is deleting (or replacing)
  its entry;
* the JS Map keeps insertion order, so pendingOperations is an association
  list, with mapSet replacing in place and appending fresh keys at the end;
* the filesystem is a function from paths to an optional node; the sender is
  given one snapshot per fs call (exists check, stat, read) so that a file
  vanishing between two calls is expressible;
* the SHA-256 digest is an arbitrary function parameter: none of the
  verified properties depend on the concrete hash;
* the network is a function from the attempt index (and the form fields)
  to a result, mirroring that each retry re-runs the upload closure.
-/

namespace FileSync

/-- DEBOUNCE_DELAY from server.js (500 ms). -/
def DEBOUNCE_DELAY : Nat := 500

/-- MAX_PENDING_OPERATIONS from server.js. -/
def MAX_PENDING_OPERATIONS : Nat := 1000

/-- OPERATION_EXPIRY_MS from server.js (5 minutes). -/
def OPERATION_EXPIRY_MS : Nat := 300000

/-- The node-watch event kinds handled by handleFileChange. -/
inductive Evt where
  | create
  | update
  | remove
deriving DecidableEq, Repr

/-- One entry of the pendingOperations map: the scheduled fire time of the
timeout (the handle itself), the event captured by the timeout closure, and
the Date.now() timestamp stored for expiry tracking. -/
structure PendingOp where
  fireTime : Nat
  evt : Evt
  timestamp : Nat
deriving DecidableEq, Repr

/-- A record of one debounce timer firing (path, captured event, fire time). -/
structure FireRec where
  path : String
  evt : Evt
  time : Nat
deriving DecidableEq, Repr

/-- Watcher-side scheduler state: the pendingOperations map in insertion
order, the log of all timer fires, and the log of fires that were handed to
syncFile (update/create only). -/
structure SchedState where
  pending : List (String × PendingOp)
  fired : List FireRec
  syncs : List FireRec
deriving DecidableEq, Repr

/-- JS Map.get. -/
def mapGet {β : Type} : List (String × β) → String → Option β
  | [], _ => none
  | e :: rest, k => if e.1 == k then some e.2 else mapGet rest k

/-- JS Map.set: replace in place when the key is present (keeping its
insertion position), append at the end otherwise. -/
def mapSet {β : Type} : List (String × β) → String → β → List (String × β)
  | [], k, v => [(k, v)]
  | e :: rest, k, v => if e.1 == k then (k, v) :: rest else e :: mapSet rest k v

/-- JS Map.delete. -/
def mapDelete {β : Type} (m : List (String × β)) (k : String) : List (String × β) :=
  m.filter fun e => !(e.1 == k)

/-- cleanupPendingOperations from server.js: drop (clearing their timers)
all entries with now - timestamp > OPERATION_EXPIRY_MS. -/
def cleanupPendingOperations (now : Nat) (m : List (String × PendingOp)) :
    List (String × PendingOp) :=
  m.filter fun e => decide (now - e.2.timestamp ≤ OPERATION_EXPIRY_MS)

/-- handleFileChange from server.js. The clearTimeout on the existing entry
is implicit: the entry itself is the live timer and it is replaced (or
deleted) below. In order: capacity check (sweep, then insertion-order
eviction of the first Map entry), then scheduling of the new timeout via
mapSet with fire time now + DEBOUNCE_DELAY. -/
def handleFileChange (evt : Evt) (filePath : String) (now : Nat) (s : SchedState) :
    SchedState :=
  let pending := s.pending
  let pending :=
    if MAX_PENDING_OPERATIONS ≤ pending.length then
      let cleaned := cleanupPendingOperations now pending
      if MAX_PENDING_OPERATIONS ≤ cleaned.length then cleaned.tail else cleaned
    else pending
  { s with pending := mapSet pending filePath ⟨now + DEBOUNCE_DELAY, evt, now⟩ }

/-- The body of the setTimeout callback in handleFileChange: remove the
entry from the map, then hand update/create events to syncFile; remove
events are logged only. -/
def fireOne (s : SchedState) (path : String) (op : PendingOp) : SchedState :=
  let s1 := { s with pending := mapDelete s.pending path }
  let r : FireRec := ⟨path, op.evt, op.fireTime⟩
  match op.evt with
  | Evt.remove => { s1 with fired := s1.fired ++ [r] }
  | _ => { s1 with fired := s1.fired ++ [r], syncs := s1.syncs ++ [r] }

/-- Fire every pending timer whose fire time has been reached by time t. -/
def fireDue (t : Nat) (s : SchedState) : SchedState :=
  (s.pending.filter fun e => decide (e.2.fireTime ≤ t)).foldl
    (fun acc e => fireOne acc e.1 e.2) s

/-- One incoming watch notification at time t: all timers due by t fire
first, then handleFileChange runs for the notification. -/
def stepEvent (s : SchedState) (t : Nat) (evt : Evt) (path : String) : SchedState :=
  handleFileChange evt path t (fireDue t s)

/-- Run a timed list of watch notifications. -/
def runEvents : SchedState → List (Nat × Evt × String) → SchedState
  | s, [] => s
  | s, e :: rest => runEvents (stepEvent s e.1 e.2.1 e.2.2) rest

/-- Let every remaining pending timer fire. -/
def flushAll (s : SchedState) : SchedState :=
  s.pending.foldl (fun acc e => fireOne acc e.1 e.2) s

/-- The scheduler state at process start. -/
def initState : SchedState := ⟨[], [], []⟩

/-- A burst on one path: each notification is at or after the previous one
and strictly within DEBOUNCE_DELAY of it, and none is a removal. -/
def chainOKb : Nat → List (Nat × Evt) → Bool
  | _, [] => true
  | tPrev, (t, e) :: rest =>
      decide (tPrev ≤ t) && decide (t < tPrev + DEBOUNCE_DELAY) &&
      decide (e ≠ Evt.remove) && chainOKb t rest

/-- The pending entry left after a burst: each notification replaces the
entry with one scheduled DEBOUNCE_DELAY after itself. -/
def finalOp (op : PendingOp) : List (Nat × Evt) → PendingOp
  | [] => op
  | (t, e) :: rest => finalOp ⟨t + DEBOUNCE_DELAY, e, t⟩ rest

/-- Outcome and attempt count of the retry loop, with the list of delays
slept between failed attempts. -/
structure RetryResult (α : Type) where
  result : Except String α
  attempts : Nat
  delays : List Nat
deriving Repr

/-- The retry loop of retryWithBackoff, indexed by the current attempt and
the number of attempts still allowed after it (maxRetries - attempt). -/
def retryAux {α : Type} (fn : Nat → Except String α) (baseDelay : Nat) :
    Nat → Nat → RetryResult α
  | attempt, 0 =>
    match fn attempt with
    | Except.ok a => ⟨Except.ok a, 1, []⟩
    | Except.error e => ⟨Except.error e, 1, []⟩
  | attempt, fuel + 1 =>
    match fn attempt with
    | Except.ok a => ⟨Except.ok a, 1, []⟩
    | Except.error _ =>
      let r := retryAux fn baseDelay (attempt + 1) fuel
      ⟨r.result, r.attempts + 1, baseDelay * 2 ^ attempt :: r.delays⟩

/-- retryWithBackoff from server.js: attempts 0..maxRetries, sleeping
baseDelay * 2 ^ attempt after each failed attempt other than the last, and
propagating the last error. fn is given the attempt index so that each
re-run of the action may behave differently. -/
def retryWithBackoff {α : Type} (fn : Nat → Except String α)
    (maxRetries : Nat) (baseDelay : Nat) : RetryResult α :=
  retryAux fn baseDelay 0 maxRetries

/-- syncStats from server.js. -/
structure SyncStats where
  totalSynced : Nat
  totalErrors : Nat
  lastSync : Option Nat
  status : String
deriving DecidableEq, Repr

/-- A filesystem node: a regular file with its bytes, or a directory. -/
inductive FNode where
  | file (content : List Nat)
  | dir
deriving DecidableEq, Repr

/-- A filesystem snapshot. -/
def FS : Type := String → Option FNode

/-- How one call to syncFile ended. -/
inductive SyncOutcome where
  | skippedInFlight
  | missingBenign
  | directoryBenign
  | errored (msg : String)
  | success
deriving DecidableEq, Repr

/-- State returned by syncFile: the statistics, the in-flight set, the
outcome, and the number of upload attempts that were made. -/
structure SyncResult where
  stats : SyncStats
  inFlight : List String
  outcome : SyncOutcome
  sendAttempts : Nat
deriving Repr

/-- syncFile from server.js. fs1 is the snapshot seen by the existsSync
check, fs2 the one seen by statSync, fs3 the one read by calculateChecksum
and the upload stream; a file vanishing between two of these calls is a
different snapshot at the later call. net models fetch for one attempt,
given the attempt index, the relativePath field and the checksum field; an
error models a network failure or a non-ok response status. The upload is
driven through retryWithBackoff with its default arguments (3, 1000), and
the finally clause removes the path from the in-flight set on every exit. -/
def syncFile (digest : List Nat → String) (fs1 fs2 fs3 : FS)
    (net : Nat → String → String → Except String Unit) (now : Nat)
    (stats : SyncStats) (inFlight : List String)
    (filePath relativePath : String) : SyncResult :=
  if inFlight.contains filePath then
    ⟨stats, inFlight, SyncOutcome.skippedInFlight, 0⟩
  else
    let fl := filePath :: inFlight
    if (fs1 filePath).isNone then
      ⟨stats, fl.erase filePath, SyncOutcome.missingBenign, 0⟩
    else
      match fs2 filePath with
      | none =>
        ⟨{ stats with totalErrors := stats.totalErrors + 1 },
          fl.erase filePath, SyncOutcome.errored "ENOENT: stat", 0⟩
      | some FNode.dir =>
        ⟨stats, fl.erase filePath, SyncOutcome.directoryBenign, 0⟩
      | some (FNode.file _) =>
        match fs3 filePath with
        | some (FNode.file content) =>
          let checksum := digest content
          let r := retryWithBackoff (fun a => net a relativePath checksum) 3 1000
          match r.result with
          | Except.ok _ =>
            ⟨{ stats with totalSynced := stats.totalSynced + 1, lastSync := some now },
              fl.erase filePath, SyncOutcome.success, r.attempts⟩
          | Except.error e =>
            ⟨{ stats with totalErrors := stats.totalErrors + 1 },
              fl.erase filePath, SyncOutcome.errored e, r.attempts⟩
        | _ =>
          ⟨{ stats with totalErrors := stats.totalErrors + 1 },
            fl.erase filePath, SyncOutcome.errored "ENOENT: read", 0⟩

/-- The receiver's destination tree: the directories created so far and the
files with their contents. -/
structure DestState where
  dirs : List String
  files : List (String × List Nat)
deriving DecidableEq, Repr

/-- The JSON body sent by the POST /files handler, with its HTTP status. -/
structure HttpResp where
  status : Nat
  success : Bool
  message : Option String
  error : Option String
  path : Option String
deriving DecidableEq, Repr

/-- JS truthiness of an optional string field: undefined and the empty
string are falsy. -/
def jsTruthy (o : Option String) : Bool :=
  match o with
  | some s => decide (s ≠ "")
  | none => false

/-- JS a || b on an optional string field. -/
def jsOr (o : Option String) (fallback : String) : String :=
  match o with
  | some s => if s = "" then fallback else s
  | none => fallback

/-- nodePath.join as used on the destination root and a relative path. -/
def pathJoin (root rel : String) : String := root ++ "/" ++ rel

/-- The characters before the last slash of a path, when it has one. -/
def beforeLastSlash : List Char → Option (List Char)
  | [] => none
  | c :: rest =>
    match beforeLastSlash rest with
    | some tail => some (c :: tail)
    | none => if c = '/' then some [] else none

/-- nodePath.dirname, on the path shapes the handler produces (a root
joined with a relative path): everything before the last slash, a dot when
there is no slash, the root when the slash is first. -/
def dirnameOf (s : String) : String :=
  match beforeLastSlash s.data with
  | none => "."
  | some [] => "/"
  | some cs => ⟨cs⟩

/-- The POST /files handler from server.js. The multipart body is already
decoded: originalname and tempContent come from req.file, and the two
optional string fields are req.body.relativePath and req.body.checksum.
failAfter injects a write-stream failure after that many bytes of the
streamed copy (none: the copy finishes). The returned Bool tells whether
the temporary file was unlinked. The streamed copy opens the destination
with createWriteStream, which truncates it, and then appends the copied
bytes in order, so a failure partway leaves a prefix of the new content at
the destination and skips the unlink of the temp file. -/
def postFiles (digest : List Nat → String) (destRoot : String) (st : DestState)
    (originalname : String) (tempContent : List Nat)
    (relativePathField checksumField : Option String)
    (failAfter : Option Nat) : DestState × HttpResp × Bool :=
  let relativePath := jsOr relativePathField originalname
  let write : Unit → DestState × HttpResp × Bool := fun _ =>
    let destPath := pathJoin destRoot relativePath
    let destDir := dirnameOf destPath
    let st1 : DestState :=
      { st with dirs := if st.dirs.contains destDir then st.dirs else st.dirs ++ [destDir] }
    match failAfter with
    | some k =>
      if k < tempContent.length then
        ({ st1 with files := mapSet st1.files destPath (tempContent.take k) },
          ⟨500, false, none, some "write stream error", none⟩, false)
      else
        ({ st1 with files := mapSet st1.files destPath tempContent },
          ⟨200, true, some "File synced successfully", none, some relativePath⟩, true)
    | none =>
      ({ st1 with files := mapSet st1.files destPath tempContent },
        ⟨200, true, some "File synced successfully", none, some relativePath⟩, true)
  if jsTruthy checksumField then
    let received := checksumField.getD ""
    if digest tempContent ≠ received then
      (st, ⟨400, false, none, some "Checksum verification failed", none⟩, true)
    else
      write ()
  else
    write ()

/-! Helper lemmas. -/

theorem retryAux_attempts_le {α : Type} (fn : Nat → Except String α) (b : Nat) :
    ∀ (fuel attempt : Nat), (retryAux fn b attempt fuel).attempts ≤ fuel + 1 := by
  intro fuel
  induction fuel with
  | zero =>
    intro attempt
    cases h : fn attempt <;> simp [retryAux, h]
  | succ n ih =>
    intro attempt
    cases h : fn attempt with
    | ok a => simp [retryAux, h]
    | error e =>
      have := ih (attempt + 1)
      simp only [retryAux, h]
      omega

theorem retryAux_allFail {α : Type} (fn : Nat → Except String α) (err : Nat → String)
    (b : Nat) (hf : ∀ i, fn i = Except.error (err i)) :
    ∀ (fuel attempt : Nat),
      retryAux fn b attempt fuel =
        ⟨Except.error (err (attempt + fuel)), fuel + 1,
          (List.range fuel).map fun j => b * 2 ^ (attempt + j)⟩ := by
  intro fuel
  induction fuel with
  | zero =>
    intro attempt
    simp [retryAux, hf attempt]
  | succ n ih =>
    intro attempt
    have hidx : attempt + 1 + n = attempt + (n + 1) := by omega
    have hmap : ((List.range n).map fun j => b * 2 ^ (attempt + 1 + j)) =
        (List.range n).map fun j => b * 2 ^ (attempt + Nat.succ j) := by
      apply List.map_congr_left
      intro j _
      have hj : attempt + 1 + j = attempt + Nat.succ j := by omega
      rw [hj]
    simp only [retryAux, hf attempt, ih (attempt + 1), RetryResult.mk.injEq]
    refine ⟨by rw [hidx], by trivial, ?_⟩
    rw [hmap, List.range_succ_eq_map, List.map_cons, List.map_map]
    simp [Function.comp]

/-- C2: retryWithBackoff attempts the action at most maxRetries + 1 times;
when the action fails on every attempt it is attempted exactly
maxRetries + 1 times, the delay before retry n (n counted from 1) is
baseDelay * 2 ^ (n - 1) with no delay before the first attempt, and the
error of the last attempt is the one propagated. -/
theorem retry_backoff_spec {α : Type} (fn : Nat → Except String α) (err : Nat → String)
    (maxRetries baseDelay : Nat) (hfail : ∀ i, fn i = Except.error (err i)) :
    (∀ g : Nat → Except String α,
      (retryWithBackoff g maxRetries baseDelay).attempts ≤ maxRetries + 1) ∧
    retryWithBackoff fn maxRetries baseDelay =
      ⟨Except.error (err maxRetries), maxRetries + 1,
        (List.range maxRetries).map fun j => baseDelay * 2 ^ j⟩ := by
  constructor
  · intro g
    exact retryAux_attempts_le g baseDelay maxRetries 0
  · have h := retryAux_allFail fn err baseDelay hfail maxRetries 0
    simpa using h

/-- Witness for C2 at maxRetries = 3, baseDelay = 1000 and a permanently
failing action: 4 attempts, delays 1000, 2000, 4000, last error propagated. -/
theorem retry_backoff_spec_witness :
    retryWithBackoff (fun _ => (Except.error "boom" : Except String Unit)) 3 1000 =
      ⟨Except.error "boom", 4, [1000, 2000, 4000]⟩ := by
  have h := (retry_backoff_spec (fun _ => (Except.error "boom" : Except String Unit))
    (fun _ => "boom") 3 1000 (fun _ => rfl)).2
  simpa using h

/-- C4: the in-flight guard of syncFile. A call for a path already in the
set returns with the state untouched and zero upload attempts; a call that
acquires the guard releases it on every exit path (missing file, directory,
stat or read failure, retries exhausted, success), for every filesystem and
network behaviour; and while held the path has multiplicity exactly 1 in
the set. -/
theorem syncFile_inflight_guard (digest : List Nat → String) (fs1 fs2 fs3 : FS)
    (net : Nat → String → String → Except String Unit) (now : Nat)
    (stats : SyncStats) (inFlight : List String) (filePath relativePath : String) :
    (inFlight.contains filePath = true →
      syncFile digest fs1 fs2 fs3 net now stats inFlight filePath relativePath =
        ⟨stats, inFlight, SyncOutcome.skippedInFlight, 0⟩) ∧
    (inFlight.contains filePath = false →
      (syncFile digest fs1 fs2 fs3 net now stats inFlight filePath relativePath).inFlight =
        inFlight) ∧
    (inFlight.contains filePath = false → inFlight.Nodup →
      (filePath :: inFlight).Nodup ∧ (filePath :: inFlight).count filePath = 1) := by
  refine ⟨?_, ?_, ?_⟩
  · intro h
    have hm : filePath ∈ inFlight := by simpa using h
    simp [syncFile, hm]
  · intro h
    have hm : filePath ∉ inFlight := by simpa using h
    simp only [syncFile, h, Bool.false_eq_true, if_false]
    cases hf1 : fs1 filePath with
    | none => simp [hf1, List.erase_cons_head]
    | some n1 =>
      cases hf2 : fs2 filePath with
      | none => simp [hf1, hf2, List.erase_cons_head]
      | some n2 =>
        cases n2 with
        | dir => simp [hf1, hf2, List.erase_cons_head]
        | file c2 =>
          cases hf3 : fs3 filePath with
          | none => simp [hf1, hf2, hf3, List.erase_cons_head]
          | some n3 =>
            cases n3 with
            | dir => simp [hf1, hf2, hf3, List.erase_cons_head]
            | file c3 =>
              cases hr : (retryWithBackoff
                  (fun a => net a relativePath (digest c3)) 3 1000).result <;>
                simp [hf1, hf2, hf3, hr, List.erase_cons_head]
  · intro h hnd
    have hmem : filePath ∉ inFlight := by simpa using h
    refine ⟨List.nodup_cons.mpr ⟨hmem, hnd⟩, ?_⟩
    rw [List.count_cons_self, List.count_eq_zero_of_not_mem hmem]

/-- Witness for C4: a call while "/w/a" is already in flight changes
nothing and makes zero attempts; a call that acquires the guard on a
missing file releases it; the held set has the path exactly once. -/
theorem syncFile_inflight_guard_witness :
    (syncFile (fun _ => "h") (fun _ => none) (fun _ => none) (fun _ => none)
        (fun _ _ _ => Except.ok ()) 0 ⟨0, 0, none, "running"⟩ ["/w/a"] "/w/a" "a") =
      ⟨⟨0, 0, none, "running"⟩, ["/w/a"], SyncOutcome.skippedInFlight, 0⟩ ∧
    (syncFile (fun _ => "h") (fun _ => none) (fun _ => none) (fun _ => none)
        (fun _ _ _ => Except.ok ()) 0 ⟨0, 0, none, "running"⟩ ["/w/b"] "/w/a" "a").inFlight =
      ["/w/b"] ∧
    (("/w/a" :: ["/w/b"]).Nodup ∧ ("/w/a" :: ["/w/b"]).count "/w/a" = 1) := by
  refine ⟨?_, ?_, ?_⟩
  · exact (syncFile_inflight_guard (fun _ => "h") (fun _ => none) (fun _ => none)
      (fun _ => none) (fun _ _ _ => Except.ok ()) 0 ⟨0, 0, none, "running"⟩
      ["/w/a"] "/w/a" "a").1 (by decide)
  · exact (syncFile_inflight_guard (fun _ => "h") (fun _ => none) (fun _ => none)
      (fun _ => none) (fun _ _ _ => Except.ok ()) 0 ⟨0, 0, none, "running"⟩
      ["/w/b"] "/w/a" "a").2.1 (by decide)
  · exact (syncFile_inflight_guard (fun _ => "h") (fun _ => none) (fun _ => none)
      (fun _ => none) (fun _ _ _ => Except.ok ()) 0 ⟨0, 0, none, "running"⟩
      ["/w/b"] "/w/a" "a").2.2 (by decide) (by decide)

/-- C8, counterexample to the claim as stated: the source file exists at
the existsSync check but has vanished by the statSync call (one step of a
vanish "between that check and the subsequent read"), and syncFile DOES
increment totalErrors (while still making zero upload attempts), because
only the explicit existence check is treated as benign - the later
statSync/read failure falls into the generic catch that counts an error. -/
theorem vanished_after_check_counterexample :
    (syncFile (fun _ => "h") (fun _ => some (FNode.file [1])) (fun _ => none) (fun _ => none)
        (fun _ _ _ => Except.ok ()) 0 ⟨0, 0, none, "running"⟩ [] "/w/a.txt" "a.txt").stats.totalErrors = 1 ∧
    (syncFile (fun _ => "h") (fun _ => some (FNode.file [1])) (fun _ => none) (fun _ => none)
        (fun _ _ _ => Except.ok ()) 0 ⟨0, 0, none, "running"⟩ [] "/w/a.txt" "a.txt").sendAttempts = 0 :=
  ⟨rfl, rfl⟩

/-- C8 amended: a source file already missing at the existence check (or
found to be a directory) is benign - totalErrors is unchanged and no upload
attempt is made; but a file that vanishes after the existence check, so
that either the subsequent stat or the subsequent checksum read fails,
makes the attempt error: totalErrors IS incremented, though still with
zero upload attempts (the failure precedes the retry loop, so nothing is
retried). -/
theorem vanished_source_amended (digest : List Nat → String) (fs1 fs2 fs3 : FS)
    (net : Nat → String → String → Except String Unit) (now : Nat)
    (stats : SyncStats) (inFlight : List String) (filePath relativePath : String)
    (hnf : inFlight.contains filePath = false) :
    (fs1 filePath = none →
      syncFile digest fs1 fs2 fs3 net now stats inFlight filePath relativePath =
        ⟨stats, inFlight, SyncOutcome.missingBenign, 0⟩) ∧
    (∀ node, fs1 filePath = some node → fs2 filePath = some FNode.dir →
      syncFile digest fs1 fs2 fs3 net now stats inFlight filePath relativePath =
        ⟨stats, inFlight, SyncOutcome.directoryBenign, 0⟩) ∧
    (∀ node, fs1 filePath = some node → fs2 filePath = none →
      syncFile digest fs1 fs2 fs3 net now stats inFlight filePath relativePath =
        ⟨{ stats with totalErrors := stats.totalErrors + 1 }, inFlight,
          SyncOutcome.errored "ENOENT: stat", 0⟩) ∧
    (∀ node content, fs1 filePath = some node →
      fs2 filePath = some (FNode.file content) → fs3 filePath = none →
      syncFile digest fs1 fs2 fs3 net now stats inFlight filePath relativePath =
        ⟨{ stats with totalErrors := stats.totalErrors + 1 }, inFlight,
          SyncOutcome.errored "ENOENT: read", 0⟩) := by
  have hm : filePath ∉ inFlight := by simpa using hnf
  refine ⟨?_, ?_, ?_, ?_⟩
  · intro h1
    simp [syncFile, hm, h1, List.erase_cons_head]
  · intro node h1 h2
    simp [syncFile, hm, h1, h2, List.erase_cons_head]
  · intro node h1 h2
    simp [syncFile, hm, h1, h2, List.erase_cons_head]
  · intro node content h1 h2 h3
    simp [syncFile, hm, h1, h2, h3, List.erase_cons_head]

/-- Witness for C8 amended, at a missing file, a directory, a file that
vanishes between the existence check and the stat, and a file that
vanishes between the stat and the checksum read. -/
theorem vanished_source_amended_witness :
    (syncFile (fun _ => "h") (fun _ => none) (fun _ => none) (fun _ => none)
        (fun _ _ _ => Except.ok ()) 0 ⟨2, 3, none, "running"⟩ [] "/w/a" "a") =
      ⟨⟨2, 3, none, "running"⟩, [], SyncOutcome.missingBenign, 0⟩ ∧
    (syncFile (fun _ => "h") (fun _ => some FNode.dir) (fun _ => some FNode.dir)
        (fun _ => some FNode.dir) (fun _ _ _ => Except.ok ()) 0 ⟨2, 3, none, "running"⟩
        [] "/w/a" "a") =
      ⟨⟨2, 3, none, "running"⟩, [], SyncOutcome.directoryBenign, 0⟩ ∧
    (syncFile (fun _ => "h") (fun _ => some (FNode.file [1])) (fun _ => none) (fun _ => none)
        (fun _ _ _ => Except.ok ()) 0 ⟨2, 3, none, "running"⟩ [] "/w/a" "a") =
      ⟨⟨2, 4, none, "running"⟩, [], SyncOutcome.errored "ENOENT: stat", 0⟩ ∧
    (syncFile (fun _ => "h") (fun _ => some (FNode.file [1]))
        (fun _ => some (FNode.file [1])) (fun _ => none)
        (fun _ _ _ => Except.ok ()) 0 ⟨2, 3, none, "running"⟩ [] "/w/a" "a") =
      ⟨⟨2, 4, none, "running"⟩, [], SyncOutcome.errored "ENOENT: read", 0⟩ := by
  refine ⟨?_, ?_, ?_, ?_⟩
  · exact (vanished_source_amended (fun _ => "h") (fun _ => none) (fun _ => none)
      (fun _ => none) (fun _ _ _ => Except.ok ()) 0 ⟨2, 3, none, "running"⟩ [] "/w/a" "a"
      (by decide)).1 rfl
  · exact (vanished_source_amended (fun _ => "h") (fun _ => some FNode.dir)
      (fun _ => some FNode.dir) (fun _ => some FNode.dir) (fun _ _ _ => Except.ok ()) 0
      ⟨2, 3, none, "running"⟩ [] "/w/a" "a" (by decide)).2.1 FNode.dir rfl rfl
  · exact (vanished_source_amended (fun _ => "h") (fun _ => some (FNode.file [1]))
      (fun _ => none) (fun _ => none) (fun _ _ _ => Except.ok ()) 0
      ⟨2, 3, none, "running"⟩ [] "/w/a" "a" (by decide)).2.2.1 (FNode.file [1]) rfl rfl
  · exact (vanished_source_amended (fun _ => "h") (fun _ => some (FNode.file [1]))
      (fun _ => some (FNode.file [1])) (fun _ => none) (fun _ _ _ => Except.ok ()) 0
      ⟨2, 3, none, "running"⟩ [] "/w/a" "a" (by decide)).2.2.2 (FNode.file [1]) [1] rfl rfl rfl

/-- C9: statistics updates of a completed transfer attempt. When the retry
loop ends in success, totalSynced goes up by exactly one, lastSync is set
to the current time and totalErrors is unchanged; when the retries are
exhausted, totalErrors goes up by exactly one, totalSynced and lastSync are
unchanged, and syncFile still returns (it reports the error instead of
crashing). With the fixed maxRetries = 3, a network that fails the first 3
attempts and succeeds on the 4th therefore ends in the success case. -/
theorem sync_stats_update (digest : List Nat → String) (fs1 fs2 fs3 : FS)
    (net : Nat → String → String → Except String Unit) (now : Nat)
    (stats : SyncStats) (inFlight : List String) (filePath relativePath : String)
    (content : List Nat)
    (hnf : inFlight.contains filePath = false)
    (h1 : fs1 filePath = some (FNode.file content))
    (h2 : fs2 filePath = some (FNode.file content))
    (h3 : fs3 filePath = some (FNode.file content)) :
    (∀ u : Unit,
      (retryWithBackoff (fun a => net a relativePath (digest content)) 3 1000).result =
        Except.ok u →
      syncFile digest fs1 fs2 fs3 net now stats inFlight filePath relativePath =
        ⟨{ stats with totalSynced := stats.totalSynced + 1, lastSync := some now }, inFlight,
          SyncOutcome.success,
          (retryWithBackoff (fun a => net a relativePath (digest content)) 3 1000).attempts⟩) ∧
    (∀ e : String,
      (retryWithBackoff (fun a => net a relativePath (digest content)) 3 1000).result =
        Except.error e →
      syncFile digest fs1 fs2 fs3 net now stats inFlight filePath relativePath =
        ⟨{ stats with totalErrors := stats.totalErrors + 1 }, inFlight,
          SyncOutcome.errored e,
          (retryWithBackoff (fun a => net a relativePath (digest content)) 3 1000).attempts⟩) := by
  have hm : filePath ∉ inFlight := by simpa using hnf
  constructor
  · intro u hr
    simp [syncFile, hm, h1, h2, h3, hr, List.erase_cons_head]
  · intro e hr
    simp [syncFile, hm, h1, h2, h3, hr, List.erase_cons_head]

/-- Witness for C9: a network returning a 500-style failure on attempts
0..2 and success on attempt 3, with maxRetries = 3, counts one success in
totalSynced after 4 attempts and leaves totalErrors unchanged; a network
that always fails counts one error after 4 attempts. -/
theorem sync_stats_update_witness :
    (syncFile (fun _ => "h") (fun _ => some (FNode.file [7])) (fun _ => some (FNode.file [7]))
        (fun _ => some (FNode.file [7]))
        (fun a _ _ => if a < 3 then Except.error "Upload failed with status: 500"
          else Except.ok ()) 42 ⟨0, 0, none, "running"⟩ [] "/w/a" "a") =
      ⟨⟨1, 0, some 42, "running"⟩, [], SyncOutcome.success, 4⟩ ∧
    (syncFile (fun _ => "h") (fun _ => some (FNode.file [7])) (fun _ => some (FNode.file [7]))
        (fun _ => some (FNode.file [7]))
        (fun _ _ _ => (Except.error "Upload failed with status: 500" : Except String Unit))
        42 ⟨0, 0, none, "running"⟩ [] "/w/a" "a") =
      ⟨⟨0, 1, none, "running"⟩, [], SyncOutcome.errored "Upload failed with status: 500", 4⟩ := by
  constructor
  · exact (sync_stats_update (fun _ => "h") (fun _ => some (FNode.file [7]))
      (fun _ => some (FNode.file [7])) (fun _ => some (FNode.file [7]))
      (fun a _ _ => if a < 3 then Except.error "Upload failed with status: 500"
        else Except.ok ()) 42 ⟨0, 0, none, "running"⟩ [] "/w/a" "a" [7]
      (by decide) rfl rfl rfl).1 () rfl
  · exact (sync_stats_update (fun _ => "h") (fun _ => some (FNode.file [7]))
      (fun _ => some (FNode.file [7])) (fun _ => some (FNode.file [7]))
      (fun _ _ _ => (Except.error "Upload failed with status: 500" : Except String Unit))
      42 ⟨0, 0, none, "running"⟩ [] "/w/a" "a" [7]
      (by decide) rfl rfl rfl).2 "Upload failed with status: 500" rfl

theorem mapGet_mapSet_self {β : Type} (m : List (String × β)) (k : String) (v : β) :
    mapGet (mapSet m k v) k = some v := by
  induction m with
  | nil => simp [mapSet, mapGet]
  | cons e rest ih =>
    by_cases h : e.1 = k
    · simp [mapSet, mapGet, h]
    · simp [mapSet, mapGet, h, ih]

/-- C3, failing input for the all-or-nothing write: the destination already
holds bytes 1,2,3, an upload of bytes 4,5,6 arrives without a checksum, and
the write stream fails after 1 copied byte. The streamed copy goes straight
to the destination path, so the observer is left with the single byte 4 - a
state that differs from both the previous and the complete new content -
the request ends in the 500 branch, and the temporary file is not unlinked. -/
theorem receive_write_partial_visible :
    postFiles (fun _ => "h") "/dst" ⟨[], [("/dst/a.txt", [1, 2, 3])]⟩ "a.txt" [4, 5, 6]
        none none (some 1) =
      (⟨["/dst"], [("/dst/a.txt", [4])]⟩,
        ⟨500, false, none, some "write stream error", none⟩, false) ∧
    ([4] : List Nat) ≠ [1, 2, 3] ∧ ([4] : List Nat) ≠ [4, 5, 6] := by
  refine ⟨by decide, by decide, by decide⟩

/-- C5 amended: an inbound transfer carrying a NON-empty checksum field
that differs from the recomputed digest of the uploaded bytes is rejected:
the temporary file is unlinked, the response is HTTP 400 with success false
and error "Checksum verification failed", and the destination tree is left
exactly as it was - no file and no directory is created (the mismatch is
detected before the destination directory is materialized). An empty
checksum field is falsy in JS, so the handler treats it as absent and skips
verification; the claim holds only for non-empty checksum values. -/
theorem checksum_mismatch_rejects (digest : List Nat → String) (root : String)
    (st : DestState) (orig : String) (temp : List Nat) (rpF : Option String)
    (c : String) (failAfter : Option Nat) (hc : c ≠ "") (hne : digest temp ≠ c) :
    postFiles digest root st orig temp rpF (some c) failAfter =
      (st, ⟨400, false, none, some "Checksum verification failed", none⟩, true) := by
  simp [postFiles, jsTruthy, hc, hne]

/-- Witness for C5 amended: a digest that yields "d" against a transmitted
checksum "x" is rejected with 400 and an unchanged destination tree. -/
theorem checksum_mismatch_rejects_witness :
    postFiles (fun _ => "d") "/dst" ⟨[], []⟩ "a.txt" [1] none (some "x") none =
      (⟨[], []⟩, ⟨400, false, none, some "Checksum verification failed", none⟩, true) :=
  checksum_mismatch_rejects (fun _ => "d") "/dst" ⟨[], []⟩ "a.txt" [1] none "x" none
    (by decide) (by decide)

/-- C5, counterexample to the claim as stated: a transfer carrying the
checksum field with the empty value, which differs from the recomputed
digest "d" of the uploaded bytes, is NOT rejected: verification is skipped
(JS truthiness), the response is 200, and the file is created under the
destination root. -/
theorem checksum_empty_field_counterexample :
    ("" : String) ≠ "d" ∧
    postFiles (fun _ => "d") "/dst" ⟨[], []⟩ "a.txt" [1] none (some "") none =
      (⟨["/dst"], [("/dst/a.txt", [1])]⟩,
        ⟨200, true, some "File synced successfully", none, some "a.txt"⟩, true) := by
  refine ⟨by decide, by decide⟩

/-- C10 amended: the destination path and the reported path both use the
value jsOr relativePathField originalname: the original filename when the
relativePath field is omitted, and also - because the empty string is falsy
in JS - when it is present but empty; a present non-empty relativePath is
used as sent. The path field of the success response always equals the
value actually joined with the mirror root. -/
theorem relativePath_fallback (digest : List Nat → String) (root : String) (st : DestState)
    (orig : String) (temp : List Nat) (rpF : Option String) :
    (postFiles digest root st orig temp rpF none none).2.1 =
      ⟨200, true, some "File synced successfully", none, some (jsOr rpF orig)⟩ ∧
    mapGet (postFiles digest root st orig temp rpF none none).1.files
      (pathJoin root (jsOr rpF orig)) = some temp ∧
    (postFiles digest root st orig temp rpF none none).2.2 = true ∧
    jsOr none orig = orig ∧
    (∀ rp : String, rp ≠ "" → jsOr (some rp) orig = rp) := by
  refine ⟨?_, ?_, ?_, rfl, ?_⟩
  · simp [postFiles, jsTruthy]
  · simp [postFiles, jsTruthy, mapGet_mapSet_self]
  · simp [postFiles, jsTruthy]
  · intro rp h
    simp [jsOr, h]

/-- Witness for C10 amended: an upload of bytes 9 with the relativePath
field omitted lands at the join of the root with the original filename and
reports that filename; a non-empty relativePath "b.txt" is used as sent. -/
theorem relativePath_fallback_witness :
    (postFiles (fun _ => "d") "/dst" ⟨[], []⟩ "a.txt" [9] none none none).2.1 =
      ⟨200, true, some "File synced successfully", none, some "a.txt"⟩ ∧
    mapGet (postFiles (fun _ => "d") "/dst" ⟨[], []⟩ "a.txt" [9] none none none).1.files
      "/dst/a.txt" = some [9] ∧
    jsOr (some "b.txt") "a.txt" = "b.txt" := by
  refine ⟨?_, ?_, ?_⟩
  · exact (relativePath_fallback (fun _ => "d") "/dst" ⟨[], []⟩ "a.txt" [9] none).1
  · exact (relativePath_fallback (fun _ => "d") "/dst" ⟨[], []⟩ "a.txt" [9] none).2.1
  · exact (relativePath_fallback (fun _ => "d") "/dst" ⟨[], []⟩ "a.txt" [9]
      (some "b.txt")).2.2.2.2 "b.txt" (by decide)

/-- C10, counterexample to the claim as stated: the relativePath field is
present with the empty value, yet the handler does not use it - the empty
string is falsy in JS, so the original filename is used instead: the
response path is the original name, and nothing is stored under the join of
the root with the empty relative path. -/
theorem relativePath_empty_counterexample :
    (postFiles (fun _ => "d") "/dst" ⟨[], []⟩ "a.txt" [1] (some "") none none).2.1.path =
      some "a.txt" ∧
    some "a.txt" ≠ some ("" : String) ∧
    mapGet (postFiles (fun _ => "d") "/dst" ⟨[], []⟩ "a.txt" [1] (some "") none none).1.files
      (pathJoin "/dst" "") = none := by
  refine ⟨by decide, by decide, by decide⟩

theorem mapSet_length_le {β : Type} (m : List (String × β)) (k : String) (v : β) :
    (mapSet m k v).length ≤ m.length + 1 := by
  induction m with
  | nil => simp [mapSet]
  | cons e rest ih =>
    by_cases h : e.1 = k
    · simp [mapSet, h]
    · simp only [mapSet, beq_iff_eq, h, if_false, List.length_cons]
      omega

/-- C6: capacity handling of the pendingOperations store. Completed
insertions keep the size within MAX_PENDING_OPERATIONS; an insertion that
finds the store at (or above) capacity first runs the staleness sweep, and
when the sweep frees nothing the oldest-inserted entry - the first entry of
the map - is dropped (its timer with it) before the new entry is stored,
while a sweep that does free room stores the new entry with no eviction. -/
theorem pending_capacity_invariant (evt : Evt) (path : String) (now : Nat) (s : SchedState) :
    (s.pending.length ≤ MAX_PENDING_OPERATIONS →
      (handleFileChange evt path now s).pending.length ≤ MAX_PENDING_OPERATIONS) ∧
    (MAX_PENDING_OPERATIONS ≤ s.pending.length →
      cleanupPendingOperations now s.pending = s.pending →
      (handleFileChange evt path now s).pending =
        mapSet s.pending.tail path ⟨now + DEBOUNCE_DELAY, evt, now⟩) ∧
    (MAX_PENDING_OPERATIONS ≤ s.pending.length →
      (cleanupPendingOperations now s.pending).length < MAX_PENDING_OPERATIONS →
      (handleFileChange evt path now s).pending =
        mapSet (cleanupPendingOperations now s.pending) path ⟨now + DEBOUNCE_DELAY, evt, now⟩) := by
  have hM : MAX_PENDING_OPERATIONS = 1000 := rfl
  have hclen : (cleanupPendingOperations now s.pending).length ≤ s.pending.length :=
    List.length_filter_le _ _
  refine ⟨?_, ?_, ?_⟩
  · intro hle
    simp only [handleFileChange]
    by_cases h1 : MAX_PENDING_OPERATIONS ≤ s.pending.length
    · simp only [h1, if_true]
      by_cases h2 : MAX_PENDING_OPERATIONS ≤ (cleanupPendingOperations now s.pending).length
      · simp only [h2, if_true]
        have h3 := mapSet_length_le (cleanupPendingOperations now s.pending).tail path
          (⟨now + DEBOUNCE_DELAY, evt, now⟩ : PendingOp)
        have h4 : (cleanupPendingOperations now s.pending).tail.length =
            (cleanupPendingOperations now s.pending).length - 1 := List.length_tail _
        omega
      · simp only [h2, if_false]
        have h3 := mapSet_length_le (cleanupPendingOperations now s.pending) path
          (⟨now + DEBOUNCE_DELAY, evt, now⟩ : PendingOp)
        omega
    · simp only [h1, if_false]
      have h3 := mapSet_length_le s.pending path (⟨now + DEBOUNCE_DELAY, evt, now⟩ : PendingOp)
      omega
  · intro h1 hcl
    simp only [handleFileChange, hcl, h1, if_true]
  · intro h1 h2
    have h2' : ¬ MAX_PENDING_OPERATIONS ≤ (cleanupPendingOperations now s.pending).length := by
      omega
    simp only [handleFileChange, h1, if_true, h2', if_false]

/-- Witness for C6: a store of 1000 fresh entries (none stale) receives an
insertion for a new path - the sweep frees nothing, so the oldest entry is
evicted and the new entry stored; the resulting size stays at 1000. -/
theorem pending_capacity_invariant_witness :
    (handleFileChange Evt.update "p" 0
        ⟨List.replicate 1000 ("k", ⟨500, Evt.update, 0⟩), [], []⟩).pending =
      mapSet (List.replicate 1000 (("k", ⟨500, Evt.update, 0⟩) : String × PendingOp)).tail
        "p" ⟨0 + DEBOUNCE_DELAY, Evt.update, 0⟩ ∧
    (handleFileChange Evt.update "p" 0
        ⟨List.replicate 1000 ("k", ⟨500, Evt.update, 0⟩), [], []⟩).pending.length ≤
      MAX_PENDING_OPERATIONS := by
  have hlen : (List.replicate 1000 (("k", ⟨500, Evt.update, 0⟩) : String × PendingOp)).length =
      1000 := List.length_replicate 1000 _
  have hcl : cleanupPendingOperations 0
        (List.replicate 1000 (("k", ⟨500, Evt.update, 0⟩) : String × PendingOp)) =
      List.replicate 1000 (("k", ⟨500, Evt.update, 0⟩) : String × PendingOp) := by
    apply List.filter_eq_self.mpr
    intro a ha
    rw [List.eq_of_mem_replicate ha]
    decide
  constructor
  · exact (pending_capacity_invariant Evt.update "p" 0
      ⟨List.replicate 1000 ("k", ⟨500, Evt.update, 0⟩), [], []⟩).2.1
      (by rw [hlen]; exact Nat.le.refl) hcl
  · exact (pending_capacity_invariant Evt.update "p" 0
      ⟨List.replicate 1000 ("k", ⟨500, Evt.update, 0⟩), [], []⟩).1
      (by rw [hlen]; exact Nat.le.refl)

theorem syncs_fireOne (s : SchedState) (path : String) (op : PendingOp)
    (h : ∀ r ∈ s.syncs, r.evt ≠ Evt.remove) :
    ∀ r ∈ (fireOne s path op).syncs, r.evt ≠ Evt.remove := by
  intro r hr
  rcases op with ⟨ft, evt, ts⟩
  cases evt with
  | remove => exact h r (by simpa [fireOne] using hr)
  | create =>
    simp only [fireOne, List.mem_append, List.mem_singleton] at hr
    rcases hr with hr | hr
    · exact h r hr
    · subst hr; simp
  | update =>
    simp only [fireOne, List.mem_append, List.mem_singleton] at hr
    rcases hr with hr | hr
    · exact h r hr
    · subst hr; simp

theorem syncs_foldl_fireOne (l : List (String × PendingOp)) :
    ∀ s : SchedState, (∀ r ∈ s.syncs, r.evt ≠ Evt.remove) →
      ∀ r ∈ (l.foldl (fun acc e => fireOne acc e.1 e.2) s).syncs, r.evt ≠ Evt.remove := by
  induction l with
  | nil => intro s h; simpa using h
  | cons e rest ih =>
    intro s h
    simp only [List.foldl_cons]
    exact ih _ (syncs_fireOne _ _ _ h)

theorem syncs_handleFileChange (evt : Evt) (path : String) (now : Nat) (s : SchedState) :
    (handleFileChange evt path now s).syncs = s.syncs := rfl

theorem syncs_stepEvent (s : SchedState) (t : Nat) (evt : Evt) (path : String)
    (h : ∀ r ∈ s.syncs, r.evt ≠ Evt.remove) :
    ∀ r ∈ (stepEvent s t evt path).syncs, r.evt ≠ Evt.remove := by
  unfold stepEvent
  rw [syncs_handleFileChange]
  exact syncs_foldl_fireOne _ s h

theorem syncs_runEvents (evts : List (Nat × Evt × String)) :
    ∀ s : SchedState, (∀ r ∈ s.syncs, r.evt ≠ Evt.remove) →
      ∀ r ∈ (runEvents s evts).syncs, r.evt ≠ Evt.remove := by
  induction evts with
  | nil => intro s h; simpa [runEvents] using h
  | cons e rest ih =>
    intro s h
    simp only [runEvents]
    exact ih _ (syncs_stepEvent _ _ _ _ h)

/-- C7: no removal event ever produces a sync handoff. Over every timed
trace of watch notifications starting from the initial state, and after all
remaining timers have fired, every record in the log of syncFile handoffs
carries a create or update event: a removal only ever reaches the
logged-only branch of the fired timer, in every debounce state. -/
theorem removals_never_sync (evts : List (Nat × Evt × String)) :
    ((flushAll (runEvents initState evts)).syncs.all fun r =>
      decide (r.evt ≠ Evt.remove)) = true := by
  rw [List.all_eq_true]
  intro r hr
  refine decide_eq_true ?_
  have h0 : ∀ x ∈ (initState : SchedState).syncs, x.evt ≠ Evt.remove := by
    simp [initState]
  exact syncs_foldl_fireOne _ _ (syncs_runEvents evts initState h0) r hr

theorem chainOKb_no_remove (l : List (Nat × Evt)) :
    ∀ (tPrev : Nat), chainOKb tPrev l = true → ∀ te ∈ l, te.2 ≠ Evt.remove := by
  induction l with
  | nil => simp
  | cons te rest ih =>
    intro tPrev h x hx
    simp only [chainOKb, Bool.and_eq_true, decide_eq_true_eq] at h
    obtain ⟨⟨⟨_, _⟩, h3⟩, h4⟩ := h
    rcases List.mem_cons.mp hx with hx | hx
    · subst hx; exact h3
    · exact ih te.1 h4 x hx

theorem finalOp_eq_getLast (rest : List (Nat × Evt)) :
    ∀ (h : rest ≠ []) (op : PendingOp),
      finalOp op rest =
        ⟨(rest.getLast h).1 + DEBOUNCE_DELAY, (rest.getLast h).2, (rest.getLast h).1⟩ := by
  induction rest with
  | nil => intro h; cases h rfl
  | cons te rest ih =>
    intro h op
    cases rest with
    | nil => rcases te with ⟨t, e⟩; simp [finalOp, List.getLast]
    | cons te2 rest2 =>
      rw [show finalOp op (te :: te2 :: rest2) =
            finalOp ⟨te.1 + DEBOUNCE_DELAY, te.2, te.1⟩ (te2 :: rest2) from rfl]
      rw [ih (by simp) _]
      congr 1

/-- During a burst on path p, each notification cancels the pending timer
and replaces the map entry; the fired and sync logs are untouched. -/
theorem runEvents_burst (p : String) (rest : List (Nat × Evt)) :
    ∀ (tPrev : Nat) (op : PendingOp) (s : SchedState),
      chainOKb tPrev rest = true →
      s.pending = [(p, op)] →
      op.fireTime = tPrev + DEBOUNCE_DELAY →
      runEvents s (rest.map fun te => (te.1, te.2, p)) =
        { s with pending := [(p, finalOp op rest)] } := by
  induction rest with
  | nil =>
    intro tPrev op s _ hp _
    cases s
    simp_all [runEvents, finalOp]
  | cons te rest ih =>
    rcases te with ⟨t, e⟩
    intro tPrev op s hchain hp hft
    have hD : DEBOUNCE_DELAY = 500 := rfl
    simp only [chainOKb, Bool.and_eq_true, decide_eq_true_eq] at hchain
    obtain ⟨⟨⟨h1, h2⟩, h3⟩, h4⟩ := hchain
    have hfire : fireDue t s = s := by
      unfold fireDue
      rw [hp]
      have hnd : decide (op.fireTime ≤ t) = false := by
        rw [decide_eq_false_iff_not]
        omega
      simp [hnd]
    have hcap : ¬ (MAX_PENDING_OPERATIONS ≤ ([(p, op)] : List (String × PendingOp)).length) := by
      simp [MAX_PENDING_OPERATIONS]
    have hstep : stepEvent s t e p =
        { s with pending := [(p, (⟨t + DEBOUNCE_DELAY, e, t⟩ : PendingOp))] } := by
      unfold stepEvent
      rw [hfire]
      simp only [handleFileChange, hp, hcap, if_false]
      simp [mapSet]
    simp only [List.map_cons, runEvents]
    rw [hstep]
    have hrec := ih t (⟨t + DEBOUNCE_DELAY, e, t⟩ : PendingOp)
      ({ s with pending := [(p, (⟨t + DEBOUNCE_DELAY, e, t⟩ : PendingOp))] }) h4 rfl rfl
    rw [hrec]
    rfl

/-- C1: trailing-edge debounce. For a burst of two or more create/update
notifications on one path, each within DEBOUNCE_DELAY of the previous one,
starting from the initial state, each notification cancels the pending
timer and schedules a fresh one, and exactly one syncFile handoff results:
it fires DEBOUNCE_DELAY after the most recent notification and carries that
last notification's event. -/
theorem debounce_coalesces (p : String) (t0 : Nat) (e0 : Evt) (rest : List (Nat × Evt))
    (hne : rest ≠ []) (_he0 : e0 ≠ Evt.remove) (hchain : chainOKb t0 rest = true) :
    (flushAll (runEvents initState
        (((t0, e0) :: rest).map fun te => (te.1, te.2, p)))).syncs =
      [⟨p, (rest.getLast hne).2, (rest.getLast hne).1 + DEBOUNCE_DELAY⟩] := by
  have hcap0 : ¬ (MAX_PENDING_OPERATIONS ≤ ([] : List (String × PendingOp)).length) := by
    simp [MAX_PENDING_OPERATIONS]
  have hstep0 : stepEvent initState t0 e0 p =
      { initState with pending := [(p, (⟨t0 + DEBOUNCE_DELAY, e0, t0⟩ : PendingOp))] } := by
    unfold stepEvent
    have hfire0 : fireDue t0 initState = initState := by
      simp [fireDue, initState]
    rw [hfire0]
    simp only [handleFileChange, initState, hcap0, if_false]
    simp [mapSet]
  have hrun := runEvents_burst p rest t0 (⟨t0 + DEBOUNCE_DELAY, e0, t0⟩ : PendingOp)
    ({ initState with pending := [(p, (⟨t0 + DEBOUNCE_DELAY, e0, t0⟩ : PendingOp))] })
    hchain rfl rfl
  simp only [List.map_cons, runEvents]
  rw [hstep0, hrun, finalOp_eq_getLast rest hne]
  have hlast : (rest.getLast hne).2 ≠ Evt.remove :=
    chainOKb_no_remove rest t0 hchain _ (List.getLast_mem hne)
  cases hevt : (rest.getLast hne).2 with
  | remove => exact absurd hevt hlast
  | create => simp [flushAll, fireOne, initState, hevt]
  | update => simp [flushAll, fireOne, initState, hevt]

/-- Witness for C1: a create at t=0 followed by an update at t=100 on path
a produces exactly one handoff, at t=600, carrying the update event. -/
theorem debounce_coalesces_witness :
    (flushAll (runEvents initState [(0, Evt.create, "a"), (100, Evt.update, "a")])).syncs =
      [⟨"a", Evt.update, 600⟩] :=
  debounce_coalesces "a" 0 Evt.create [(100, Evt.update)] (by decide) (by decide) (by decide)

end FileSync
